import Mathlib

/-!
Verification development for the StoryAI ("Story Forge") editor.

Shallow embedding of the suggestion-acceptance workflow and story-state
model: the data model (`types.ts`), the per-surface generation handlers
(`StoryOverview.tsx`, `PlotManager.tsx`, `CharacterManager.tsx`,
`ChapterEditor.tsx`), the App-level field-replacement callbacks
(`App.tsx`), and the persistence layer (`fileService.ts`).

Provider calls are asynchronous and external; every handler is modelled
as a pure function of its pre-state together with the value the provider
resolved to, returning the post-state plus the emitted effects (toast
notifications, story-update callbacks invoked, and whether the provider
was called at all).  JavaScript string truthiness (`!s` is true exactly
for the empty string) is made explicit.  `crypto.randomUUID` is modelled
as an explicit supply of fresh identifiers.  `JSON.stringify` /
`JSON.parse` are platform built-ins, modelled at the level of the JSON
value tree they serialize and recover.
-/

namespace StoryAI

/-! ## Data model (`types.ts`) -/

/-- `Subplot` from `types.ts`. -/
structure Subplot where
  id : String
  title : String
  description : String
deriving DecidableEq, Repr

/-- `Character` from `types.ts`. -/
structure Character where
  id : String
  name : String
  description : String
  imageUrl : String
  imagePrompt : String
deriving DecidableEq, Repr

/-- `Chapter` from `types.ts`. -/
structure Chapter where
  id : String
  title : String
  content : String
deriving DecidableEq, Repr

/-- `Story` from `types.ts`. -/
structure Story where
  title : String
  overview : String
  mainPlot : String
  subplots : List Subplot
  characters : List Character
  chapters : List Chapter
deriving DecidableEq, Repr

/-- Toast kind, from `ToastMessage` in `types.ts` (`'success' | 'error'`). -/
inductive ToastKind where
  | success
  | error
deriving DecidableEq, Repr

/-- A toast notification as emitted through `addToast(message, type)`. -/
structure Toast where
  message : String
  kind : ToastKind
deriving DecidableEq, Repr

/-! ## JavaScript string primitives

The handlers use `!s` (truthiness), `s.startsWith(p)`, `s.includes(p)`
and `s.trim()`.  They are modelled over the character list of the
string, matching JavaScript semantics on the character data the
repository actually handles. -/

/-- JavaScript `str.startsWith(pre)`. -/
def strStartsWith (s pre : String) : Bool :=
  pre.data.isPrefixOf s.data

/-- JavaScript `str.includes(sub)`: `sub` occurs contiguously in `s`. -/
def strIncludes (s sub : String) : Bool :=
  (s.data.tails).any (fun t => sub.data.isPrefixOf t)

/-- JavaScript whitespace recognised by `String.prototype.trim` (the
ASCII part: space, tab, line feed, carriage return, vertical tab, form
feed). -/
def isJsWhitespace (c : Char) : Bool :=
  c = ' ' || c = '\t' || c = '\n' || c = '\r' || c = '\x0b' || c = '\x0c'

/-- JavaScript `str.trim()`: strip whitespace from both ends. -/
def jsTrim (s : String) : String :=
  ⟨((s.data.dropWhile isJsWhitespace).reverse.dropWhile isJsWhitespace).reverse⟩

example : jsTrim "  Hello " = "Hello" := by decide
example : strStartsWith "Failed to generate" "Failed" = true := by decide
example : strIncludes "xx[AI failed]yy" "[AI failed" = true := by decide

/-! ## Story-level state container (`App.tsx`)

`App.tsx` exposes one replace-whole-value callback per top-level Story
field (`handleUpdateOverview`, `handleUpdateMainPlot`,
`handleUpdateSubplots`, `handleUpdateCharacters`, `handleUpdateChapters`),
each producing a new Story with only that field replaced.  The handlers
below record the callback invocations they perform as `Option` values
(`none` = the callback was never invoked); applying `none` leaves the
Story untouched, exactly as an un-invoked callback does. -/

/-- Apply an optional `onUpdate` (overview) invocation to the Story. -/
def applyOverviewUpdate (s : Story) : Option String → Story
  | none => s
  | some v => { s with overview := v }

/-- Apply an optional `onUpdateMainPlot` invocation to the Story. -/
def applyMainPlotUpdate (s : Story) : Option String → Story
  | none => s
  | some v => { s with mainPlot := v }

/-- Apply an optional `onUpdateSubplots` invocation to the Story. -/
def applySubplotsUpdate (s : Story) : Option (List Subplot) → Story
  | none => s
  | some v => { s with subplots := v }

/-- Apply an optional `onUpdateCharacters` invocation to the Story. -/
def applyCharactersUpdate (s : Story) : Option (List Character) → Story
  | none => s
  | some v => { s with characters := v }

/-- Apply an optional `onUpdateChapters` invocation to the Story. -/
def applyChaptersUpdate (s : Story) : Option (List Chapter) → Story
  | none => s
  | some v => { s with chapters := v }

/-! ## Overview surface (`StoryOverview.tsx`) -/

/-- Result of running `handleGenerate` in `StoryOverview.tsx`: the
`suggestion` state after the handler, the toasts emitted, whether
`generateStoryOverview` was invoked, and the `onUpdate` calls made
(always `none`: generation never touches the Story). -/
structure OverviewGenOut where
  suggestion : Option String
  toasts : List Toast
  providerCalled : Bool
  update : Option String
deriving DecidableEq, Repr

/-- `handleGenerate` from `StoryOverview.tsx` (lines 20–40).
`prompt` is the local prompt input, `prior` the `suggestion` state when
the handler starts, `r` the value `generateStoryOverview` resolves to.
Precondition: non-empty prompt.  The result is installed as the
suggestion only when it does not start with `"Failed"` (the sentinel). -/
def handleGenerateOverview (prompt : String) (prior : Option String)
    (r : String) : OverviewGenOut :=
  if prompt = "" then
    { suggestion := prior
      toasts := [⟨"Please enter a prompt to generate an overview.", .error⟩]
      providerCalled := false
      update := none }
  else if strStartsWith r "Failed" then
    { suggestion := none
      toasts := [⟨r, .error⟩]
      providerCalled := true
      update := none }
  else
    { suggestion := some r
      toasts := [⟨"Suggestion generated successfully!", .success⟩]
      providerCalled := true
      update := none }

/-- `handleAcceptSuggestion` from `StoryOverview.tsx`: when a suggestion
is pending, invoke `onUpdate` with it and clear it. -/
def handleAcceptOverview (sugg : Option String) :
    Option String × Option String :=
  match sugg with
  | some v => (none, some v)
  | none => (none, none)

/-- The overview `textarea`'s `onChange` (`StoryOverview.tsx` lines
69–75) only invokes `onUpdate(e.target.value)`; the `suggestion` state
is not touched. -/
def overviewTextareaEdit (sugg : Option String) (v : String) :
    Option String × Option String :=
  (sugg, some v)

/-! ## Plot surface (`PlotManager.tsx`) -/

/-- A suggested subplot before an id is assigned
(`Omit<Subplot, 'id'>`). -/
structure SubplotData where
  title : String
  description : String
deriving DecidableEq, Repr

/-- The four suggestion slots of `PlotManager.tsx`. -/
structure PlotState where
  suggestedMainPlot : Option String
  suggestedRefinedPlot : Option String
  suggestedSubplots : Option (List SubplotData)
  suggestedRefinedSubplot : Option (String × String)
deriving DecidableEq, Repr

/-- The empty `PlotManager` suggestion state (all `useState(null)`). -/
def PlotState.idle : PlotState := ⟨none, none, none, none⟩

/-- Result of a `PlotManager` generation handler. -/
structure PlotGenOut where
  state : PlotState
  toasts : List Toast
  providerCalled : Bool
  mainPlotUpdate : Option String
  subplotsUpdate : Option (List Subplot)
deriving DecidableEq, Repr

/-- `handleGeneratePlot` from `PlotManager.tsx` (lines 39–56).
Precondition: non-empty overview.  Note: the resolved value `r` is
installed via `setSuggestedMainPlot(result)` and a success toast fires
with NO sentinel inspection. -/
def handleGeneratePlot (overview : String) (st : PlotState) (r : String) :
    PlotGenOut :=
  if overview = "" then
    { state := st
      toasts := [⟨"Please write an overview first to generate a plot.", .error⟩]
      providerCalled := false
      mainPlotUpdate := none
      subplotsUpdate := none }
  else
    { state := { st with suggestedMainPlot := some r, suggestedRefinedPlot := none }
      toasts := [⟨"Main plot suggestion generated!", .success⟩]
      providerCalled := true
      mainPlotUpdate := none
      subplotsUpdate := none }

/-- `handleRefinePlot` from `PlotManager.tsx` (lines 66–83).
Precondition: non-empty main plot.  The resolved value is installed
unconditionally, with no sentinel inspection. -/
def handleRefinePlot (mainPlot : String) (st : PlotState) (r : String) :
    PlotGenOut :=
  if mainPlot = "" then
    { state := st
      toasts := [⟨"The main plot is empty. There's nothing to refine.", .error⟩]
      providerCalled := false
      mainPlotUpdate := none
      subplotsUpdate := none }
  else
    { state := { st with suggestedRefinedPlot := some r, suggestedMainPlot := none }
      toasts := [⟨"Main plot refinement suggestion generated!", .success⟩]
      providerCalled := true
      mainPlotUpdate := none
      subplotsUpdate := none }

/-- `handleGenerateSubplots` from `PlotManager.tsx` (lines 93–109).
Precondition: non-empty main plot.  The resolved list is installed
unconditionally — including the empty list, which is the provider's
failure sentinel for the subplot operation. -/
def handleGenerateSubplots (mainPlot : String) (st : PlotState)
    (r : List SubplotData) : PlotGenOut :=
  if mainPlot = "" then
    { state := st
      toasts := [⟨"Please write a main plot first to generate subplots.", .error⟩]
      providerCalled := false
      mainPlotUpdate := none
      subplotsUpdate := none }
  else
    { state := { st with suggestedSubplots := some r }
      toasts := [⟨"Subplot suggestions generated successfully!", .success⟩]
      providerCalled := true
      mainPlotUpdate := none
      subplotsUpdate := none }

/-- `handleRefineSubplot` from `PlotManager.tsx` (lines 120–136).
Precondition: the subplot's description is non-empty.  The resolved
value is installed unconditionally. -/
def handleRefineSubplot (sp : Subplot) (st : PlotState) (r : String) :
    PlotGenOut :=
  if sp.description = "" then
    { state := st
      toasts := [⟨"Subplot description is empty.", .error⟩]
      providerCalled := false
      mainPlotUpdate := none
      subplotsUpdate := none }
  else
    { state := { st with suggestedRefinedSubplot := some (sp.id, r) }
      toasts := [⟨"Subplot refinement generated!", .success⟩]
      providerCalled := true
      mainPlotUpdate := none
      subplotsUpdate := none }

/-- `handleAcceptSubplots` from `PlotManager.tsx` (lines 111–118):
each suggested subplot gets a fresh id from `crypto.randomUUID()` and
the batch is appended to the existing list.  The sequence of ids the
browser mints is modelled as the explicit list `freshIds` (one per
suggested item, in order). -/
def handleAcceptSubplots (subplots : List Subplot)
    (suggested : List SubplotData) (freshIds : List String) : List Subplot :=
  subplots ++ (suggested.zip freshIds).map
    (fun p => { id := p.2, title := p.1.title, description := p.1.description })

/-- The main-plot `textarea`'s `onChange` (`PlotManager.tsx` lines
171–177) only invokes `onUpdateMainPlot(e.target.value)`; none of the
four suggestion slots is touched. -/
def mainPlotTextareaEdit (st : PlotState) (v : String) :
    PlotState × Option String :=
  (st, some v)

/-! ## Character surface (`CharacterManager.tsx`) -/

/-- A suggested character before id/imageUrl are assigned
(`Omit<Character, 'id' | 'imageUrl'>`). -/
structure CharacterData where
  name : String
  description : String
  imagePrompt : String
deriving DecidableEq, Repr

/-- Result of `handleGenerateCharacter`. -/
structure CharGenOut where
  suggestion : Option CharacterData
  toasts : List Toast
  providerCalled : Bool
  charactersUpdate : Option (List Character)
deriving DecidableEq, Repr

/-- `handleGenerateCharacter` from `CharacterManager.tsx` (lines
95–111).  No precondition.  The tagged error record (sentinel) is
recognised by `newCharData.name !== 'Error'`. -/
def handleGenerateCharacter (prior : Option CharacterData)
    (r : CharacterData) : CharGenOut :=
  if r.name = "Error" then
    { suggestion := none
      toasts := [⟨"Failed to generate character.", .error⟩]
      providerCalled := true
      charactersUpdate := none }
  else
    { suggestion := some r
      toasts := [⟨"Character suggestion generated!", .success⟩]
      providerCalled := true
      charactersUpdate := none }

/-- Result of `handleRefineDescription`. -/
structure CharRefineOut where
  suggestion : Option (String × String)
  toasts : List Toast
  providerCalled : Bool
  charactersUpdate : Option (List Character)
deriving DecidableEq, Repr

/-- `handleRefineDescription` from `CharacterManager.tsx` (lines
121–141).  Precondition: non-empty description.  Sentinel: result
starting with `"Failed"`. -/
def handleRefineDescription (id name description : String)
    (prior : Option (String × String)) (r : String) : CharRefineOut :=
  if description = "" then
    { suggestion := prior
      toasts := [⟨"Character description is empty.", .error⟩]
      providerCalled := false
      charactersUpdate := none }
  else if strStartsWith r "Failed" then
    { suggestion := none
      toasts := [⟨r, .error⟩]
      providerCalled := true
      charactersUpdate := none }
  else
    { suggestion := some (id, r)
      toasts := [⟨"Description refinement generated!", .success⟩]
      providerCalled := true
      charactersUpdate := none }

/-- `handleUpdateCharacter` restricted to the `imageUrl` field, as
invoked from `handleGenerateImage`. -/
def setCharacterImageUrl (characters : List Character) (id url : String) :
    List Character :=
  characters.map (fun c => if c.id = id then { c with imageUrl := url } else c)

/-- Result of `handleGenerateImage`. -/
structure ImageGenOut where
  toasts : List Toast
  providerCalled : Bool
  charactersUpdate : Option (List Character)
deriving DecidableEq, Repr

/-- `handleGenerateImage` from `CharacterManager.tsx` (lines 159–178).
Precondition: non-empty prompt.  Sentinel: empty string.  On success the
image URL is written DIRECTLY into the Story's character list via
`handleUpdateCharacter` — no pending suggestion is created. -/
def handleGenerateImage (characters : List Character) (id prompt : String)
    (r : String) : ImageGenOut :=
  if prompt = "" then
    { toasts := [⟨"Please provide a visual prompt for the image.", .error⟩]
      providerCalled := false
      charactersUpdate := none }
  else if r = "" then
    { toasts := [⟨"Failed to generate image.", .error⟩]
      providerCalled := true
      charactersUpdate := none }
  else
    { toasts := [⟨"Image generated successfully!", .success⟩]
      providerCalled := true
      charactersUpdate := some (setCharacterImageUrl characters id r) }

/-! ## Chapter surface (`ChapterEditor.tsx`) -/

/-- The discriminator of the chapter suggestion
(`{type: 'continue' | 'refine', content: string}`). -/
inductive ChapterSuggKind where
  | cont
  | refine
deriving DecidableEq, Repr

/-- The chapter editor's pending suggestion. -/
structure ChapterSuggestion where
  kind : ChapterSuggKind
  content : String
deriving DecidableEq, Repr

/-- Which chapter field an edit targets (`'title' | 'content'`). -/
inductive ChapterField where
  | title
  | content
deriving DecidableEq, Repr

/-- Write one field of one chapter, as `handleUpdateChapter`'s
`chapters.map(...)` does. -/
def writeChapterField (chapters : List Chapter) (id : String)
    (field : ChapterField) (v : String) : List Chapter :=
  chapters.map (fun c =>
    if c.id = id then
      match field with
      | .title => { c with title := v }
      | .content => { c with content := v }
    else c)

/-- `handleUpdateChapter` from `ChapterEditor.tsx` (lines 46–51): a
direct edit of a chapter field.  Editing `content` clears the pending
suggestion (`setSuggestion(null)`); editing `title` does not.  Returns
the new suggestion state and the `onUpdateChapters` invocation. -/
def handleUpdateChapter (chapters : List Chapter)
    (sugg : Option ChapterSuggestion) (id : String) (field : ChapterField)
    (v : String) : Option ChapterSuggestion × List Chapter :=
  ((if field = .content then none else sugg),
   writeChapterField chapters id field v)

/-- Result of `handleContinue` / `handleRefine`. -/
structure ChapterGenOut where
  suggestion : Option ChapterSuggestion
  toasts : List Toast
  providerCalled : Bool
  chaptersUpdate : Option (List Chapter)
deriving DecidableEq, Repr

/-- `handleContinue` from `ChapterEditor.tsx` (lines 53–70).  Guard:
a chapter must be selected (silent return otherwise).  Sentinel: result
containing `"[AI failed"`. -/
def handleContinue (selected : Option Chapter)
    (prior : Option ChapterSuggestion) (r : String) : ChapterGenOut :=
  match selected with
  | none =>
    { suggestion := prior
      toasts := []
      providerCalled := false
      chaptersUpdate := none }
  | some _ =>
    if strIncludes r "[AI failed" then
      { suggestion := none
        toasts := [⟨"Failed to continue chapter.", .error⟩]
        providerCalled := true
        chaptersUpdate := none }
    else
      { suggestion := some ⟨.cont, r⟩
        toasts := [⟨"Suggestion generated successfully!", .success⟩]
        providerCalled := true
        chaptersUpdate := none }

/-- `handleRefine` from `ChapterEditor.tsx` (lines 72–92).
Precondition: a selected chapter with non-empty content. -/
def handleRefineChapter (selected : Option Chapter)
    (prior : Option ChapterSuggestion) (r : String) : ChapterGenOut :=
  match selected with
  | none =>
    { suggestion := prior
      toasts := [⟨"There is no content to refine.", .error⟩]
      providerCalled := false
      chaptersUpdate := none }
  | some ch =>
    if ch.content = "" then
      { suggestion := prior
        toasts := [⟨"There is no content to refine.", .error⟩]
        providerCalled := false
        chaptersUpdate := none }
    else if strIncludes r "[AI failed" then
      { suggestion := none
        toasts := [⟨"Failed to refine chapter.", .error⟩]
        providerCalled := true
        chaptersUpdate := none }
    else
      { suggestion := some ⟨.refine, r⟩
        toasts := [⟨"Refinement generated successfully!", .success⟩]
        providerCalled := true
        chaptersUpdate := none }

/-- The content a `'continue'` accept writes
(`ChapterEditor.tsx` lines 96–100): `currentContent` is the TRIMMED
existing content, and the `'\n\n'` separator is inserted only when that
trimmed content is non-empty (JavaScript string truthiness). -/
def acceptContinueContent (content suggestion : String) : String :=
  let currentContent := jsTrim content
  currentContent ++ (if currentContent = "" then "" else "\n\n") ++ suggestion

/-- `handleAcceptSuggestion` from `ChapterEditor.tsx` (lines 94–107):
with a pending suggestion and a selected chapter, write the merged
content through `handleUpdateChapter` (which also clears the
suggestion) and clear the suggestion. -/
def handleAcceptChapterSuggestion (chapters : List Chapter)
    (selected : Option Chapter) (sugg : Option ChapterSuggestion) :
    Option ChapterSuggestion × List Chapter :=
  match sugg, selected with
  | some s, some ch =>
    match s.kind with
    | .cont =>
      (none, writeChapterField chapters ch.id .content
        (acceptContinueContent ch.content s.content))
    | .refine =>
      (none, writeChapterField chapters ch.id .content s.content)
  | _, _ => (sugg, chapters)

/-- JavaScript falsiness of the `selectedChapterId` state
(`string | null`): `null` and the empty string are falsy. -/
def selFalsy : Option String → Bool
  | none => true
  | some s => s == ""

/-- Does a chapter with this id exist (`chapters.some(c => c.id === selectedChapterId)`)? -/
def chapterExists (chapters : List Chapter) (i : String) : Bool :=
  chapters.any (fun c => c.id == i)

/-- The selection-reconciliation `useEffect` of `ChapterEditor.tsx`
(lines 21–28).  Both `if`s read the same pre-effect snapshot of
`selectedChapterId`; their guards are mutually exclusive, so the net
new selection is as below. -/
def reconcileSelection (sel : Option String) (chapters : List Chapter) :
    Option String :=
  if selFalsy sel then
    match chapters with
    | [] => sel
    | c :: _ => some c.id
  else
    match sel with
    | some i =>
      if chapterExists chapters i then some i
      else
        match chapters with
        | [] => none
        | c :: _ => some c.id
    | none => none

/-! ## Persistence (`fileService.ts`)

`saveStoryToLocalDirectory` serializes the Story with
`JSON.stringify(story, null, 2)` and derives the download filename from
the title; `loadStoryFromLocalFile` parses the picked file with
`JSON.parse`, checks the presence of four top-level keys, and resolves
the parsed value as the Story.  `JSON.stringify`/`JSON.parse` are
platform built-ins and mutually inverse on the acyclic
string/array/object data a Story contains; they are modelled at the
level of the JSON value tree. -/

/-- A JSON value, as produced by `JSON.parse` (numbers restricted to
integers; no floating point is involved in any Story document the
repository writes). -/
inductive Json where
  | null
  | bool (b : Bool)
  | num (n : Int)
  | str (s : String)
  | arr (elems : List Json)
  | obj (fields : List (String × Json))

/-- Is `c` in `[a-z0-9]` case-insensitively, i.e. NOT matched by the
`/[^a-z0-9]/gi` regex of `saveStoryToLocalDirectory`? -/
def isAsciiAlphanum (c : Char) : Bool :=
  ('a' ≤ c && c ≤ 'z') || ('A' ≤ c && c ≤ 'Z') || ('0' ≤ c && c ≤ '9')

/-- `story.title.replace(/[^a-z0-9]/gi, '_')`: every non-alphanumeric
character becomes an underscore. -/
def sanitizeTitle (t : String) : String :=
  ⟨t.data.map (fun c => if isAsciiAlphanum c then c else '_')⟩

/-- The filename chosen by `saveStoryToLocalDirectory`
(`fileService.ts` line 313):
`` `${story.title.replace(/[^a-z0-9]/gi, '_') || 'story_forge_project'}.json` ``.
The JavaScript `||` falls back exactly when the replaced string is
empty. -/
def saveFileName (title : String) : String :=
  (if sanitizeTitle title = "" then "story_forge_project"
   else sanitizeTitle title) ++ ".json"

/-- The JSON value `JSON.stringify` reads off a `Subplot`. -/
def subplotToJson (sp : Subplot) : Json :=
  .obj [("id", .str sp.id), ("title", .str sp.title),
        ("description", .str sp.description)]

/-- The JSON value `JSON.stringify` reads off a `Character`. -/
def characterToJson (c : Character) : Json :=
  .obj [("id", .str c.id), ("name", .str c.name),
        ("description", .str c.description), ("imageUrl", .str c.imageUrl),
        ("imagePrompt", .str c.imagePrompt)]

/-- The JSON value `JSON.stringify` reads off a `Chapter`. -/
def chapterToJson (ch : Chapter) : Json :=
  .obj [("id", .str ch.id), ("title", .str ch.title),
        ("content", .str ch.content)]

/-- The JSON document `saveStoryToLocalDirectory` writes: the full
Story, fields in declaration order. -/
def storyToJson (s : Story) : Json :=
  .obj [("title", .str s.title),
        ("overview", .str s.overview),
        ("mainPlot", .str s.mainPlot),
        ("subplots", .arr (s.subplots.map subplotToJson)),
        ("characters", .arr (s.characters.map characterToJson)),
        ("chapters", .arr (s.chapters.map chapterToJson))]

/-- Does the JavaScript `in` operator THROW a `TypeError` on this
parsed value?  `key in x` is legal on objects and arrays; on a
primitive (string, number, boolean) or `null` it throws, and inside
`loadStoryFromLocalFile` that throw lands in the same `catch` as a
`JSON.parse` failure. -/
def jsInThrows : Json → Bool
  | .obj _ => false
  | .arr _ => false
  | _ => true

/-- JavaScript `key in storyData` on a parsed value on which `in` does
not throw: key presence on an object; always false on an array (JSON
arrays only have numeric indices, never these string keys). -/
def hasKey (j : Json) (k : String) : Bool :=
  match j with
  | .obj fields => fields.any (fun p => p.1 == k)
  | _ => false

/-- The validation check of `loadStoryFromLocalFile` (`fileService.ts`
line 355): all four of `title`, `overview`, `mainPlot`, `characters`
must be present. -/
def validateStory (j : Json) : Bool :=
  hasKey j "title" && hasKey j "overview" && hasKey j "mainPlot" &&
    hasKey j "characters"

/-- The load decision on a successfully parsed document.  On an object
or array, the four-key check runs: resolve the parsed value itself
(`resolve(storyData as Story)`) or report the invalid-format alert and
resolve null.  On a primitive or `null`, the first `in` throws a
`TypeError`, which the surrounding `catch` reports with the
parse-failure alert (and resolves null). -/
def loadParsed (j : Json) : Except String Json :=
  if jsInThrows j then
    .error "Failed to parse story file. It may be corrupt or not a valid story project."
  else if validateStory j then .ok j
  else .error "Invalid story file format."

/-- Read a field of a parsed JSON object (JavaScript property access;
parsed objects have unique keys, `List.lookup` takes the first). -/
def getKey (j : Json) (k : String) : Option Json :=
  match j with
  | .obj fields => fields.lookup k
  | _ => none

/-- View a JSON value as a string. -/
def asStr : Json → Option String
  | .str s => some s
  | _ => none

/-- Interpret a parsed JSON value as a `Subplot` (the shape the
`as Story` cast promises for subplot entries). -/
def subplotOfJson (j : Json) : Option Subplot := do
  let i ← (getKey j "id").bind asStr
  let t ← (getKey j "title").bind asStr
  let d ← (getKey j "description").bind asStr
  pure ⟨i, t, d⟩

/-- Interpret a parsed JSON value as a `Character`. -/
def characterOfJson (j : Json) : Option Character := do
  let i ← (getKey j "id").bind asStr
  let n ← (getKey j "name").bind asStr
  let d ← (getKey j "description").bind asStr
  let u ← (getKey j "imageUrl").bind asStr
  let p ← (getKey j "imagePrompt").bind asStr
  pure ⟨i, n, d, u, p⟩

/-- Interpret a parsed JSON value as a `Chapter`. -/
def chapterOfJson (j : Json) : Option Chapter := do
  let i ← (getKey j "id").bind asStr
  let t ← (getKey j "title").bind asStr
  let c ← (getKey j "content").bind asStr
  pure ⟨i, t, c⟩

/-- Interpret every element of a list, failing if any element fails. -/
def traverseOption (f : α → Option β) : List α → Option (List β)
  | [] => some []
  | a :: l =>
    match f a, traverseOption f l with
    | some b, some bl => some (b :: bl)
    | _, _ => none

/-- Interpret a parsed JSON value as a list via an element decoder. -/
def listOfJson (f : Json → Option α) : Json → Option (List α)
  | .arr elems => traverseOption f elems
  | _ => none

/-- Interpret a parsed JSON document as a `Story` — the meaning of the
`storyData as Story` cast for a document of the saved shape. -/
def storyOfJson (j : Json) : Option Story := do
  let t ← (getKey j "title").bind asStr
  let o ← (getKey j "overview").bind asStr
  let m ← (getKey j "mainPlot").bind asStr
  let sp ← (getKey j "subplots").bind (listOfJson subplotOfJson)
  let ch ← (getKey j "characters").bind (listOfJson characterOfJson)
  let cp ← (getKey j "chapters").bind (listOfJson chapterOfJson)
  pure ⟨t, o, m, sp, ch, cp⟩

/-! ## Helper lemmas -/

/-- Sanitizing a title yields the empty string exactly for the empty
title: the replacement maps every character to SOME character. -/
theorem sanitizeTitle_eq_empty_iff (t : String) :
    sanitizeTitle t = "" ↔ t = "" := by
  obtain ⟨l⟩ := t
  simp [sanitizeTitle, String.ext_iff]

/-- Element-wise decoding inverts element-wise encoding. -/
theorem traverseOption_map {α β : Type} {f : α → Option β} {g : β → α}
    (h : ∀ x, f (g x) = some x) :
    ∀ l : List β, traverseOption f (l.map g) = some l
  | [] => rfl
  | a :: l => by simp [traverseOption, h a, traverseOption_map h l]

/-- Filtering with a predicate that keeps every pair whose key is `k`
does not change whether a pair with key `k` occurs. -/
theorem any_key_filter (k : String) (q : String × Json → Bool)
    (hq : ∀ p : String × Json, p.1 = k → q p = true) :
    ∀ fs : List (String × Json),
      ((fs.filter q).any (fun p => p.1 == k))
        = (fs.any (fun p => p.1 == k)) := by
  intro fs
  induction fs with
  | nil => rfl
  | cons p fs ih =>
    by_cases hpk : p.1 = k
    · rw [List.filter_cons, hq p hpk]
      simp [hpk]
    · rw [List.filter_cons]
      cases hqp : q p <;> simp [hpk, hqp, ih]

/-! ## Claim C3 — chapter-continuation append semantics -/

/-- Claim C3, counterexample.  The claim states that for NON-EMPTY
existing content the accepted content is
`trim(existing) + "\n\n" + suggestion`.  The code decides the separator
on the TRIMMED content: with existing content `" "` (a single space,
which is non-empty) and suggestion `"World."`, the code yields
`"World."`, not `trim(" ") + "\n\n" + "World." = "\n\nWorld."`. -/
theorem claim3_counterexample :
    (" " : String) ≠ ""
    ∧ acceptContinueContent " " "World." = "World."
    ∧ jsTrim " " ++ "\n\n" ++ "World." = "\n\nWorld."
    ∧ ("World." : String) ≠ "\n\nWorld." := by
  refine ⟨by decide, by decide, by decide, by decide⟩

/-- Claim C3 as amended: accepting a continuation suggestion sets the
chapter content to `trim(content) ++ "\n\n" ++ suggestion` when the
TRIMMED existing content is non-empty, and to the suggestion alone when
the trimmed content is empty; the claim's two concrete examples hold,
and the full accept handler writes exactly this content into the
selected chapter. -/
theorem claim3_amended_append (content suggestion : String) :
    (jsTrim content = "" → acceptContinueContent content suggestion = suggestion)
    ∧ (jsTrim content ≠ "" →
        acceptContinueContent content suggestion
          = jsTrim content ++ "\n\n" ++ suggestion)
    ∧ acceptContinueContent "Hello" "World." = "Hello\n\nWorld."
    ∧ acceptContinueContent "" "World." = "World."
    ∧ (∀ (chapters : List Chapter) (ch : Chapter),
        handleAcceptChapterSuggestion chapters (some ch) (some ⟨.cont, suggestion⟩)
          = (none, writeChapterField chapters ch.id .content
              (acceptContinueContent ch.content suggestion))) := by
  refine ⟨?_, ?_, by decide, by decide, fun chapters ch => rfl⟩
  · intro h
    simp [acceptContinueContent, h]
  · intro h
    simp [acceptContinueContent, h]

/-- Claim C3, witness: the amended theorem at content `"Hello"`,
suggestion `"World."`. -/
theorem claim3_witness :
    acceptContinueContent "Hello" "World." = jsTrim "Hello" ++ "\n\n" ++ "World." :=
  (claim3_amended_append "Hello" "World.").2.1 (by decide)

/-! ## Claim C4 — subplot batch accept -/

/-- Claim C4: accepting a suggested subplot batch appends the suggested
items to the existing list in order, each with a fresh minted id, and
leaves every existing subplot unchanged.  `freshIds` is the sequence of
ids `crypto.randomUUID()` mints (one per suggested item); its freshness
and distinctness are the browser's guarantee, taken as hypotheses. -/
theorem claim4_subplot_batch (subplots : List Subplot)
    (suggested : List SubplotData) (freshIds : List String)
    (hlen : freshIds.length = suggested.length)
    (hnodup : freshIds.Nodup)
    (hfresh : ∀ i ∈ freshIds, i ∉ subplots.map Subplot.id)
    (hold : (subplots.map Subplot.id).Nodup) :
    (handleAcceptSubplots subplots suggested freshIds).take subplots.length
        = subplots
    ∧ ((handleAcceptSubplots subplots suggested freshIds).drop
          subplots.length).map Subplot.title = suggested.map SubplotData.title
    ∧ ((handleAcceptSubplots subplots suggested freshIds).drop
          subplots.length).map Subplot.description
        = suggested.map SubplotData.description
    ∧ ((handleAcceptSubplots subplots suggested freshIds).drop
          subplots.length).map Subplot.id = freshIds
    ∧ ((handleAcceptSubplots subplots suggested freshIds).map
          Subplot.id).Nodup := by
  have hids : ((suggested.zip freshIds).map
      (fun p => Subplot.mk p.2 p.1.title p.1.description)).map Subplot.id
        = freshIds := by
    rw [List.map_map]
    have : (Subplot.id ∘ fun p : SubplotData × String =>
        Subplot.mk p.2 p.1.title p.1.description) = Prod.snd := rfl
    rw [this, List.map_snd_zip _ _ (le_of_eq hlen)]
  refine ⟨?_, ?_, ?_, ?_, ?_⟩
  · rw [handleAcceptSubplots, List.take_left]
  · rw [handleAcceptSubplots, List.drop_left, List.map_map]
    have : (Subplot.title ∘ fun p : SubplotData × String =>
        Subplot.mk p.2 p.1.title p.1.description)
          = SubplotData.title ∘ Prod.fst := rfl
    rw [this, ← List.map_map, List.map_fst_zip _ _ (le_of_eq hlen.symm)]
  · rw [handleAcceptSubplots, List.drop_left, List.map_map]
    have : (Subplot.description ∘ fun p : SubplotData × String =>
        Subplot.mk p.2 p.1.title p.1.description)
          = SubplotData.description ∘ Prod.fst := rfl
    rw [this, ← List.map_map, List.map_fst_zip _ _ (le_of_eq hlen.symm)]
  · rw [handleAcceptSubplots, List.drop_left, hids]
  · rw [handleAcceptSubplots, List.map_append, hids, List.nodup_append]
    exact ⟨hold, hnodup, fun a hmap hfr => hfresh a hfr hmap⟩

/-- Claim C4, witness: the claim's own concrete instance — existing
`[{id:"a",title:"T1"}]`, suggested `[{T2,D2},{T3,D3}]`, minted ids
`["b","c"]` — yields three subplots, `"T1"` unchanged first, the new
entries appended in order with the fresh ids, all ids distinct. -/
theorem claim4_witness :
    handleAcceptSubplots [⟨"a", "T1", "D1"⟩] [⟨"T2", "D2"⟩, ⟨"T3", "D3"⟩]
        ["b", "c"]
      = [⟨"a", "T1", "D1"⟩, ⟨"b", "T2", "D2"⟩, ⟨"c", "T3", "D3"⟩]
    ∧ ((handleAcceptSubplots [⟨"a", "T1", "D1"⟩] [⟨"T2", "D2"⟩, ⟨"T3", "D3"⟩]
        ["b", "c"]).map Subplot.id).Nodup := by
  have h := claim4_subplot_batch [⟨"a", "T1", "D1"⟩]
    [⟨"T2", "D2"⟩, ⟨"T3", "D3"⟩] ["b", "c"]
    (by decide) (by decide) (by decide) (by decide)
  exact ⟨by decide, h.2.2.2.2⟩

/-! ## Claim C5 — save filename derivation -/

/-- Claim C5, counterexample.  The claim states the filename falls back
to `"story_forge_project"` for every title consisting entirely of
non-alphanumeric characters.  In the code the fallback (`||`) fires
only when the REPLACED string is empty, i.e. only for the empty title:
the all-punctuation title `"!!!"` yields `"___.json"`. -/
theorem claim5_counterexample :
    ("!!!" : String) ≠ ""
    ∧ "!!!".data.all (fun c => !(isAsciiAlphanum c)) = true
    ∧ saveFileName "!!!" = "___.json"
    ∧ ("___.json" : String) ≠ "story_forge_project.json" := by
  refine ⟨by decide, by decide, by decide, by decide⟩

/-- Claim C5 as amended: save derives the filename by replacing every
non-alphanumeric character of the title with an underscore; the
`"story_forge_project"` fallback is used exactly when the title itself
is empty (an all-punctuation title becomes all underscores, which is
non-empty, so no fallback). -/
theorem claim5_amended_filename (title : String) :
    saveFileName title
      = (if title = "" then "story_forge_project" else sanitizeTitle title)
          ++ ".json"
    ∧ (sanitizeTitle title).data
        = title.data.map (fun c => if isAsciiAlphanum c then c else '_')
    ∧ (sanitizeTitle title = "" ↔ title = "") := by
  refine ⟨?_, rfl, sanitizeTitle_eq_empty_iff title⟩
  rw [saveFileName]
  by_cases h : title = ""
  · rw [if_pos ((sanitizeTitle_eq_empty_iff title).mpr h), if_pos h]
  · rw [if_neg (fun hs => h ((sanitizeTitle_eq_empty_iff title).mp hs)),
      if_neg h]

/-! ## Claim C6 — load validation -/

/-- Claim C6, counterexample.  The claim states that WHENEVER any of
the four keys is absent, load reports "Invalid story file format".
For a file whose JSON parses to a top-level number (e.g. `42`) all
four keys are absent, but the source's `'title' in storyData` throws a
`TypeError` on the primitive, which the surrounding `catch` reports
with the parse-failure alert "Failed to parse story file. It may be
corrupt or not a valid story project." — not the invalid-format
message. -/
theorem claim6_counterexample :
    hasKey (Json.num 42) "title" = false
    ∧ hasKey (Json.num 42) "overview" = false
    ∧ hasKey (Json.num 42) "mainPlot" = false
    ∧ hasKey (Json.num 42) "characters" = false
    ∧ loadParsed (Json.num 42)
        = .error "Failed to parse story file. It may be corrupt or not a valid story project."
    ∧ ("Failed to parse story file. It may be corrupt or not a valid story project." : String)
        ≠ "Invalid story file format." := by
  refine ⟨rfl, rfl, rfl, rfl, rfl, by decide⟩

/-- Claim C6 as amended: for every parsed document on which the `in`
operator is legal (an object or array), load accepts if and only if
all four of `title`, `overview`, `mainPlot`, `characters` are present,
and otherwise reports "Invalid story file format" and resolves to no
document; for a parsed primitive or `null`, the `in` operator throws
and load reports the parse-failure alert instead; presence or absence
of the `subplots` and `chapters` keys never influences acceptance
(removing them, or adding either, leaves the validation verdict
unchanged). -/
theorem claim6_amended_load :
    (∀ j : Json, jsInThrows j = false →
        (loadParsed j = .ok j ↔
          (hasKey j "title" && hasKey j "overview" && hasKey j "mainPlot"
            && hasKey j "characters") = true))
    ∧ (∀ j : Json, jsInThrows j = false →
        (hasKey j "title" && hasKey j "overview" && hasKey j "mainPlot"
          && hasKey j "characters") = false →
        loadParsed j = .error "Invalid story file format.")
    ∧ (∀ j : Json, jsInThrows j = true →
        loadParsed j
          = .error "Failed to parse story file. It may be corrupt or not a valid story project.")
    ∧ (∀ (fields : List (String × Json)) (v : Json),
        validateStory (.obj (("subplots", v) :: fields))
            = validateStory (.obj fields)
        ∧ validateStory (.obj (("chapters", v) :: fields))
            = validateStory (.obj fields)
        ∧ validateStory (.obj (fields.filter
              (fun p => !(p.1 == "subplots" || p.1 == "chapters"))))
            = validateStory (.obj fields)) := by
  refine ⟨?_, ?_, ?_, ?_⟩
  · intro j hthrow
    rw [loadParsed, validateStory,
      if_neg (fun ht => by rw [hthrow] at ht; exact Bool.noConfusion ht)]
    constructor
    · intro h
      by_contra hv
      rw [if_neg (fun ht => hv ht)] at h
      exact Except.noConfusion h
    · intro h
      rw [if_pos h]
  · intro j hthrow h
    rw [loadParsed, validateStory,
      if_neg (fun ht => by rw [hthrow] at ht; exact Bool.noConfusion ht),
      if_neg (fun ht => by rw [ht] at h; exact Bool.noConfusion h)]
  · intro j hthrow
    rw [loadParsed, if_pos hthrow]
  · intro fields v
    refine ⟨by simp [validateStory, hasKey], by simp [validateStory, hasKey], ?_⟩
    have hfilter : ∀ k : String, k ≠ "subplots" → k ≠ "chapters" →
        ((fields.filter (fun p => !(p.1 == "subplots" || p.1 == "chapters"))).any
            (fun p => p.1 == k))
          = (fields.any (fun p => p.1 == k)) := by
      intro k hk1 hk2
      exact any_key_filter k _ (fun p hp => by simp [hp, hk1, hk2]) fields
    simp only [validateStory, hasKey]
    rw [hfilter "title" (by decide) (by decide),
      hfilter "overview" (by decide) (by decide),
      hfilter "mainPlot" (by decide) (by decide),
      hfilter "characters" (by decide) (by decide)]

/-- Claim C6, witness: a document with the four required keys is
accepted unchanged; an object missing `characters` is rejected with
the invalid-format message; a top-level number is reported with the
parse-failure alert. -/
theorem claim6_amended_witness :
    loadParsed (.obj [("title", .str "T"), ("overview", .str "O"),
        ("mainPlot", .str "M"), ("characters", .arr [])])
      = .ok (.obj [("title", .str "T"), ("overview", .str "O"),
        ("mainPlot", .str "M"), ("characters", .arr [])])
    ∧ loadParsed (.obj [("title", .str "T"), ("overview", .str "O"),
        ("mainPlot", .str "M")])
      = .error "Invalid story file format."
    ∧ loadParsed (.num 42)
      = .error "Failed to parse story file. It may be corrupt or not a valid story project." := by
  refine ⟨?_, ?_, ?_⟩
  · exact (claim6_amended_load.1 (.obj [("title", .str "T"), ("overview", .str "O"),
      ("mainPlot", .str "M"), ("characters", .arr [])]) rfl).mpr (by rfl)
  · exact claim6_amended_load.2.1 (.obj [("title", .str "T"), ("overview", .str "O"),
      ("mainPlot", .str "M")]) rfl (by rfl)
  · exact claim6_amended_load.2.2.1 (.num 42) rfl

/-! ## Claim C7 — failed preconditions are inert -/

/-- Claim C7: for every surface whose generation has a precondition
(overview generation: non-empty prompt; plot generation: non-empty
overview; plot refinement and subplot generation: non-empty main plot;
subplot/character-description refinement: non-empty description;
chapter refinement: non-empty content; image generation: non-empty
prompt), triggering generation with the precondition violated leaves
the suggestion state unchanged, emits exactly one error notification,
does not invoke the provider, and performs no story update (applying
the absent update leaves any Story unchanged). -/
theorem claim7_preconditions :
    (∀ (prior : Option String) (r : String),
        handleGenerateOverview "" prior r
          = ⟨prior, [⟨"Please enter a prompt to generate an overview.", .error⟩],
              false, none⟩)
    ∧ (∀ (st : PlotState) (r : String),
        handleGeneratePlot "" st r
          = ⟨st, [⟨"Please write an overview first to generate a plot.", .error⟩],
              false, none, none⟩)
    ∧ (∀ (st : PlotState) (r : String),
        handleRefinePlot "" st r
          = ⟨st, [⟨"The main plot is empty. There's nothing to refine.", .error⟩],
              false, none, none⟩)
    ∧ (∀ (st : PlotState) (r : List SubplotData),
        handleGenerateSubplots "" st r
          = ⟨st, [⟨"Please write a main plot first to generate subplots.", .error⟩],
              false, none, none⟩)
    ∧ (∀ (i t : String) (st : PlotState) (r : String),
        handleRefineSubplot ⟨i, t, ""⟩ st r
          = ⟨st, [⟨"Subplot description is empty.", .error⟩], false, none, none⟩)
    ∧ (∀ (i n : String) (prior : Option (String × String)) (r : String),
        handleRefineDescription i n "" prior r
          = ⟨prior, [⟨"Character description is empty.", .error⟩], false, none⟩)
    ∧ (∀ (characters : List Character) (i : String) (r : String),
        handleGenerateImage characters i "" r
          = ⟨[⟨"Please provide a visual prompt for the image.", .error⟩],
              false, none⟩)
    ∧ (∀ (i t : String) (prior : Option ChapterSuggestion) (r : String),
        handleRefineChapter (some ⟨i, t, ""⟩) prior r
          = ⟨prior, [⟨"There is no content to refine.", .error⟩], false, none⟩)
    ∧ (∀ story : Story,
        applyOverviewUpdate story none = story
        ∧ applyMainPlotUpdate story none = story
        ∧ applySubplotsUpdate story none = story
        ∧ applyCharactersUpdate story none = story
        ∧ applyChaptersUpdate story none = story) :=
  ⟨fun _ _ => rfl, fun _ _ => rfl, fun _ _ => rfl, fun _ _ => rfl,
    fun _ _ _ _ => rfl, fun _ _ _ _ => rfl, fun _ _ _ => rfl,
    fun _ _ _ _ => rfl, fun _ => ⟨rfl, rfl, rfl, rfl, rfl⟩⟩

/-! ## Claim C8 — direct edits and pending suggestions -/

/-- Claim C8, counterexample.  The claim states that on the overview,
main-plot and chapter-content surfaces, directly editing the field
discards the pending suggestion.  The overview `textarea`'s `onChange`
only calls `onUpdate` and leaves the suggestion state untouched: with
suggestion `"sugg"` pending, typing `"new text"` keeps the suggestion
pending, so a pending suggestion coexists with the edited field. -/
theorem claim8_counterexample :
    overviewTextareaEdit (some "sugg") "new text" = (some "sugg", some "new text")
    ∧ (some "sugg" : Option String) ≠ none := by
  exact ⟨rfl, by decide⟩

/-- Claim C8 as amended: only the chapter surface implicitly discards
its pending suggestion when the underlying content field is edited
(`handleUpdateChapter` with the `content` field clears the suggestion;
a `title` edit keeps it); the overview and main-plot textarea edits
update the field and leave every pending suggestion in place. -/
theorem claim8_amended_edit_discard :
    (∀ (chapters : List Chapter) (sugg : Option ChapterSuggestion) (i v : String),
        handleUpdateChapter chapters sugg i .content v
          = (none, writeChapterField chapters i .content v))
    ∧ (∀ (chapters : List Chapter) (sugg : Option ChapterSuggestion) (i v : String),
        handleUpdateChapter chapters sugg i .title v
          = (sugg, writeChapterField chapters i .title v))
    ∧ (∀ (sugg : Option String) (v : String),
        overviewTextareaEdit sugg v = (sugg, some v))
    ∧ (∀ (st : PlotState) (v : String),
        mainPlotTextareaEdit st v = (st, some v)) :=
  ⟨fun _ _ _ _ => rfl, fun _ _ _ _ => rfl, fun _ _ => rfl, fun _ _ => rfl⟩

/-! ## Claim C9 — save/load round trip -/

/-- Claim C9: for every Story value, the document written by save
carries all four validated keys, so load accepts it unchanged, and
interpreting it as a Story recovers the original:
`load(save(story)) == story`. -/
theorem claim9_round_trip (s : Story) :
    validateStory (storyToJson s) = true
    ∧ loadParsed (storyToJson s) = .ok (storyToJson s)
    ∧ storyOfJson (storyToJson s) = some s := by
  refine ⟨rfl, rfl, ?_⟩
  simp [storyOfJson, storyToJson, getKey, asStr, listOfJson, List.lookup,
    traverseOption_map (fun sp => (rfl : subplotOfJson (subplotToJson sp) = some sp)),
    traverseOption_map (fun c => (rfl : characterOfJson (characterToJson c) = some c)),
    traverseOption_map (fun ch => (rfl : chapterOfJson (chapterToJson ch) = some ch))]

/-! ## Claim C10 — chapter selection invariant -/

/-- Claim C10, counterexample.  The reconciliation effect tests the
selected id with JavaScript truthiness, so a selected empty-string id
is treated as "nothing selected": with chapters
`[{id:"a"},{id:""}]` and the chapter with id `""` selected (it exists
in the list), the effect moves the selection to `"a"` instead of
keeping it. -/
theorem claim10_counterexample :
    chapterExists [⟨"a", "A", "x"⟩, ⟨"", "B", "y"⟩] "" = true
    ∧ reconcileSelection (some "") [⟨"a", "A", "x"⟩, ⟨"", "B", "y"⟩] = some "a"
    ∧ (some "a" : Option String) ≠ some "" := by
  refine ⟨by decide, by decide, by decide⟩

/-- Claim C10 as amended: for every selection that is not the
empty-string id (every id the editor itself mints is a non-empty UUID;
an empty-string id is treated as no-selection by JavaScript
truthiness), the reconciliation effect keeps a still-existing selected
chapter, moves a dangling selection to the first chapter (or clears it
when the list is empty), selects the first chapter when nothing was
selected, and never leaves a selected id that is absent from the
list. -/
theorem claim10_amended_selection (sel : Option String)
    (chapters : List Chapter) (hsel : sel ≠ some "") :
    (∀ i, sel = some i → chapterExists chapters i = true →
        reconcileSelection sel chapters = some i)
    ∧ (∀ i, sel = some i → chapterExists chapters i = false →
        reconcileSelection sel chapters = chapters.head?.map Chapter.id)
    ∧ (sel = none →
        reconcileSelection sel chapters = chapters.head?.map Chapter.id)
    ∧ (∀ j, reconcileSelection sel chapters = some j →
        chapterExists chapters j = true) := by
  cases sel with
  | none =>
    refine ⟨by simp, by simp, ?_, ?_⟩
    · intro _
      cases chapters with
      | nil => rfl
      | cons c cs => rfl
    · intro j hj
      cases chapters with
      | nil => simp [reconcileSelection, selFalsy] at hj
      | cons c cs =>
        simp only [reconcileSelection, selFalsy, if_pos] at hj
        rw [Option.some_inj] at hj
        simp [chapterExists, List.any_cons, hj]
  | some i =>
    have hi : i ≠ "" := fun h => hsel (by rw [h])
    have hfalsy : selFalsy (some i) = false := by
      simp [selFalsy, hi]
    refine ⟨?_, ?_, by simp, ?_⟩
    · intro k hk hex
      rw [Option.some_inj] at hk
      subst hk
      simp [reconcileSelection, hfalsy, hex]
    · intro k hk hex
      rw [Option.some_inj] at hk
      subst hk
      cases chapters with
      | nil => simp [reconcileSelection, hfalsy, hex]
      | cons c cs => simp [reconcileSelection, hfalsy, hex]
    · intro j hj
      simp only [reconcileSelection, hfalsy, Bool.false_eq_true, if_false] at hj
      by_cases hex : chapterExists chapters i = true
      · rw [if_pos hex, Option.some_inj] at hj
        rw [← hj]
        exact hex
      · rw [if_neg hex] at hj
        cases chapters with
        | nil => exact Option.noConfusion hj
        | cons c cs =>
          rw [Option.some_inj] at hj
          simp [chapterExists, List.any_cons, hj]

/-- Claim C10, witness: with a non-empty selected id that still exists
the selection is kept, and a dangling non-empty selected id moves to
the first chapter. -/
theorem claim10_witness :
    reconcileSelection (some "x") [⟨"y", "A", ""⟩, ⟨"x", "B", ""⟩] = some "x"
    ∧ reconcileSelection (some "z") [⟨"y", "A", ""⟩] = some "y" := by
  constructor
  · exact (claim10_amended_selection (some "x") [⟨"y", "A", ""⟩, ⟨"x", "B", ""⟩]
      (by decide)).1 "x" rfl (by decide)
  · have h := (claim10_amended_selection (some "z") [⟨"y", "A", ""⟩]
      (by decide)).2.1 "z" rfl (by decide)
    simpa using h

/-! ## Claim C1 — sentinel failure handling -/

/-- Claim C1, counterexample.  The claim states that a sentinel failure
result is never installed as a pending suggestion and always produces
an error notification.  `handleGeneratePlot` installs the resolved
value with no sentinel inspection: the plot sentinel
`"Failed to generate main plot. Please try again."` is installed as
the pending main-plot suggestion and a SUCCESS toast fires. -/
theorem claim1_counterexample :
    strStartsWith "Failed to generate main plot. Please try again." "Failed"
        = true
    ∧ handleGeneratePlot "some overview" PlotState.idle
          "Failed to generate main plot. Please try again."
        = ⟨⟨some "Failed to generate main plot. Please try again.",
              none, none, none⟩,
            [⟨"Main plot suggestion generated!", .success⟩], true, none, none⟩
    ∧ (⟨"Main plot suggestion generated!", .success⟩ : Toast).kind ≠ .error := by
  refine ⟨by decide, by decide, by decide⟩

/-- Claim C1 as amended: the overview, character, character-refinement,
chapter (continue and refine) and image surfaces do return to Idle on a
sentinel result — no pending suggestion, one error notification, no
story update.  The four `PlotManager` handlers are the exception: they
install the resolved value as the pending suggestion unconditionally
and fire a success notification, so their sentinel results (text
starting with `"Failed"`, or the empty list for subplots) ARE installed
as pending suggestions. -/
theorem claim1_amended_sentinel :
    (∀ (prompt : String) (prior : Option String) (r : String),
        prompt ≠ "" → strStartsWith r "Failed" = true →
        handleGenerateOverview prompt prior r = ⟨none, [⟨r, .error⟩], true, none⟩)
    ∧ (∀ (prior : Option CharacterData) (r : CharacterData),
        r.name = "Error" →
        handleGenerateCharacter prior r
          = ⟨none, [⟨"Failed to generate character.", .error⟩], true, none⟩)
    ∧ (∀ (i n d : String) (prior : Option (String × String)) (r : String),
        d ≠ "" → strStartsWith r "Failed" = true →
        handleRefineDescription i n d prior r
          = ⟨none, [⟨r, .error⟩], true, none⟩)
    ∧ (∀ (ch : Chapter) (prior : Option ChapterSuggestion) (r : String),
        strIncludes r "[AI failed" = true →
        handleContinue (some ch) prior r
          = ⟨none, [⟨"Failed to continue chapter.", .error⟩], true, none⟩)
    ∧ (∀ (ch : Chapter) (prior : Option ChapterSuggestion) (r : String),
        ch.content ≠ "" → strIncludes r "[AI failed" = true →
        handleRefineChapter (some ch) prior r
          = ⟨none, [⟨"Failed to refine chapter.", .error⟩], true, none⟩)
    ∧ (∀ (characters : List Character) (i prompt : String),
        prompt ≠ "" →
        handleGenerateImage characters i prompt ""
          = ⟨[⟨"Failed to generate image.", .error⟩], true, none⟩)
    ∧ (∀ (overview : String) (st : PlotState) (r : String),
        overview ≠ "" →
        (handleGeneratePlot overview st r).state.suggestedMainPlot = some r
        ∧ (handleGeneratePlot overview st r).toasts
            = [⟨"Main plot suggestion generated!", .success⟩])
    ∧ (∀ (mainPlot : String) (st : PlotState) (r : String),
        mainPlot ≠ "" →
        (handleRefinePlot mainPlot st r).state.suggestedRefinedPlot = some r
        ∧ (handleRefinePlot mainPlot st r).toasts
            = [⟨"Main plot refinement suggestion generated!", .success⟩])
    ∧ (∀ (mainPlot : String) (st : PlotState) (r : List SubplotData),
        mainPlot ≠ "" →
        (handleGenerateSubplots mainPlot st r).state.suggestedSubplots = some r
        ∧ (handleGenerateSubplots mainPlot st r).toasts
            = [⟨"Subplot suggestions generated successfully!", .success⟩])
    ∧ (∀ (sp : Subplot) (st : PlotState) (r : String),
        sp.description ≠ "" →
        (handleRefineSubplot sp st r).state.suggestedRefinedSubplot
            = some (sp.id, r)
        ∧ (handleRefineSubplot sp st r).toasts
            = [⟨"Subplot refinement generated!", .success⟩]) := by
  refine ⟨?_, ?_, ?_, ?_, ?_, ?_, ?_, ?_, ?_, ?_⟩
  · intro prompt prior r hp hr
    simp [handleGenerateOverview, hp, hr]
  · intro prior r hr
    simp [handleGenerateCharacter, hr]
  · intro i n d prior r hd hr
    simp [handleRefineDescription, hd, hr]
  · intro ch prior r hr
    simp [handleContinue, hr]
  · intro ch prior r hc hr
    simp [handleRefineChapter, hc, hr]
  · intro characters i prompt hp
    simp [handleGenerateImage, hp]
  · intro overview st r ho
    simp [handleGeneratePlot, ho]
  · intro mainPlot st r hm
    simp [handleRefinePlot, hm]
  · intro mainPlot st r hm
    simp [handleGenerateSubplots, hm]
  · intro sp st r hd
    simp [handleRefineSubplot, hd]

/-- Claim C1, witness: the amended theorem instantiated, one conjunct
per surface, at concrete sentinel results. -/
theorem claim1_witness :
    handleGenerateOverview "p" (some "old") "Failed to generate overview. Please try again."
        = ⟨none, [⟨"Failed to generate overview. Please try again.", .error⟩], true, none⟩
    ∧ handleGenerateCharacter none ⟨"Error", "Failed to generate character.", ""⟩
        = ⟨none, [⟨"Failed to generate character.", .error⟩], true, none⟩
    ∧ handleRefineDescription "c1" "N" "desc" none "Failed to refine character. Please try again."
        = ⟨none, [⟨"Failed to refine character. Please try again.", .error⟩], true, none⟩
    ∧ handleContinue (some ⟨"k", "T", "body"⟩) none
          "\n\n[AI failed to continue the story. Please try again.]"
        = ⟨none, [⟨"Failed to continue chapter.", .error⟩], true, none⟩
    ∧ handleRefineChapter (some ⟨"k", "T", "body"⟩) none
          "\n\n[AI failed to refine the chapter. Please try again.]"
        = ⟨none, [⟨"Failed to refine chapter.", .error⟩], true, none⟩
    ∧ handleGenerateImage [] "c1" "prompt" ""
        = ⟨[⟨"Failed to generate image.", .error⟩], true, none⟩
    ∧ (handleGeneratePlot "ov" PlotState.idle "Failed to generate main plot. Please try again."
        ).state.suggestedMainPlot
        = some "Failed to generate main plot. Please try again."
    ∧ (handleRefinePlot "mp" PlotState.idle "Failed to refine main plot. Please try again."
        ).state.suggestedRefinedPlot
        = some "Failed to refine main plot. Please try again."
    ∧ (handleGenerateSubplots "mp" PlotState.idle []).state.suggestedSubplots = some []
    ∧ (handleRefineSubplot ⟨"s1", "T", "D"⟩ PlotState.idle
          "Failed to refine subplot. Please try again."
        ).state.suggestedRefinedSubplot
        = some ("s1", "Failed to refine subplot. Please try again.") :=
  ⟨claim1_amended_sentinel.1 "p" (some "old") _ (by decide) (by decide),
   claim1_amended_sentinel.2.1 none _ (by decide),
   claim1_amended_sentinel.2.2.1 "c1" "N" "desc" none _ (by decide) (by decide),
   claim1_amended_sentinel.2.2.2.1 ⟨"k", "T", "body"⟩ none _ (by decide),
   claim1_amended_sentinel.2.2.2.2.1 ⟨"k", "T", "body"⟩ none _ (by decide) (by decide),
   claim1_amended_sentinel.2.2.2.2.2.1 [] "c1" "prompt" (by decide),
   (claim1_amended_sentinel.2.2.2.2.2.2.1 "ov" PlotState.idle _ (by decide)).1,
   (claim1_amended_sentinel.2.2.2.2.2.2.2.1 "mp" PlotState.idle _ (by decide)).1,
   (claim1_amended_sentinel.2.2.2.2.2.2.2.2.1 "mp" PlotState.idle [] (by decide)).1,
   (claim1_amended_sentinel.2.2.2.2.2.2.2.2.2 ⟨"s1", "T", "D"⟩ PlotState.idle _ (by decide)).1⟩

/-! ## Claim C2 — successful generation: one suggestion, Story untouched -/

/-- Claim C2, counterexample.  The claim states that NO generation
handler mutates the Story.  `handleGenerateImage` is a generation
handler (it invokes the provider's image operation), and on a
successful (non-sentinel, non-empty) result it writes the image URL
directly into the Story's character list — the post-call Story differs
from the pre-call Story, and no pending suggestion is created. -/
theorem claim2_counterexample :
    ("data:img" : String) ≠ ""
    ∧ handleGenerateImage [⟨"c1", "N", "D", "", "P"⟩] "c1" "P" "data:img"
        = ⟨[⟨"Image generated successfully!", .success⟩], true,
            some [⟨"c1", "N", "D", "data:img", "P"⟩]⟩
    ∧ applyCharactersUpdate ⟨"T", "O", "M", [], [⟨"c1", "N", "D", "", "P"⟩], []⟩
          (handleGenerateImage [⟨"c1", "N", "D", "", "P"⟩] "c1" "P" "data:img"
            ).charactersUpdate
        ≠ ⟨"T", "O", "M", [], [⟨"c1", "N", "D", "", "P"⟩], []⟩ := by
  refine ⟨by decide, by decide, by decide⟩

/-- Claim C2 as amended: for every suggestion-producing generation
request — overview generation, character generation, plot generation,
plot refinement, subplot generation, subplot refinement,
character-description refinement, chapter continuation and chapter
refinement — that resolves to a non-sentinel result, exactly one
pending suggestion exists for that surface immediately after
resolution and the Story is unchanged (no update callback is invoked,
so applying the handler's recorded update to any Story returns it
intact).  The character-image operation is the exception: on success it
invokes `onUpdateCharacters` with the image URL written into the target
character and creates no pending suggestion. -/
theorem claim2_amended_success :
    (∀ (prompt : String) (prior : Option String) (r : String) (story : Story),
        prompt ≠ "" → strStartsWith r "Failed" = false →
        handleGenerateOverview prompt prior r
          = ⟨some r, [⟨"Suggestion generated successfully!", .success⟩], true, none⟩
        ∧ applyOverviewUpdate story
            (handleGenerateOverview prompt prior r).update = story)
    ∧ (∀ (prior : Option CharacterData) (r : CharacterData) (story : Story),
        r.name ≠ "Error" →
        handleGenerateCharacter prior r
          = ⟨some r, [⟨"Character suggestion generated!", .success⟩], true, none⟩
        ∧ applyCharactersUpdate story
            (handleGenerateCharacter prior r).charactersUpdate = story)
    ∧ (∀ (overview : String) (st : PlotState) (r : String) (story : Story),
        overview ≠ "" →
        (handleGeneratePlot overview st r).state.suggestedMainPlot = some r
        ∧ (handleGeneratePlot overview st r).state.suggestedRefinedPlot = none
        ∧ (handleGeneratePlot overview st r).mainPlotUpdate = none
        ∧ (handleGeneratePlot overview st r).subplotsUpdate = none
        ∧ applyMainPlotUpdate story
            (handleGeneratePlot overview st r).mainPlotUpdate = story
        ∧ applySubplotsUpdate story
            (handleGeneratePlot overview st r).subplotsUpdate = story)
    ∧ (∀ (mainPlot : String) (st : PlotState) (r : String) (story : Story),
        mainPlot ≠ "" →
        (handleRefinePlot mainPlot st r).state.suggestedRefinedPlot = some r
        ∧ (handleRefinePlot mainPlot st r).state.suggestedMainPlot = none
        ∧ (handleRefinePlot mainPlot st r).mainPlotUpdate = none
        ∧ (handleRefinePlot mainPlot st r).subplotsUpdate = none
        ∧ applyMainPlotUpdate story
            (handleRefinePlot mainPlot st r).mainPlotUpdate = story)
    ∧ (∀ (mainPlot : String) (st : PlotState) (r : List SubplotData) (story : Story),
        mainPlot ≠ "" →
        (handleGenerateSubplots mainPlot st r).state.suggestedSubplots = some r
        ∧ (handleGenerateSubplots mainPlot st r).mainPlotUpdate = none
        ∧ (handleGenerateSubplots mainPlot st r).subplotsUpdate = none
        ∧ applySubplotsUpdate story
            (handleGenerateSubplots mainPlot st r).subplotsUpdate = story)
    ∧ (∀ (sp : Subplot) (st : PlotState) (r : String) (story : Story),
        sp.description ≠ "" →
        (handleRefineSubplot sp st r).state.suggestedRefinedSubplot
            = some (sp.id, r)
        ∧ (handleRefineSubplot sp st r).mainPlotUpdate = none
        ∧ (handleRefineSubplot sp st r).subplotsUpdate = none
        ∧ applySubplotsUpdate story
            (handleRefineSubplot sp st r).subplotsUpdate = story)
    ∧ (∀ (i n d : String) (prior : Option (String × String)) (r : String)
          (story : Story),
        d ≠ "" → strStartsWith r "Failed" = false →
        handleRefineDescription i n d prior r
          = ⟨some (i, r), [⟨"Description refinement generated!", .success⟩],
              true, none⟩
        ∧ applyCharactersUpdate story
            (handleRefineDescription i n d prior r).charactersUpdate = story)
    ∧ (∀ (ch : Chapter) (prior : Option ChapterSuggestion) (r : String) (story : Story),
        strIncludes r "[AI failed" = false →
        handleContinue (some ch) prior r
          = ⟨some ⟨.cont, r⟩,
              [⟨"Suggestion generated successfully!", .success⟩], true, none⟩
        ∧ applyChaptersUpdate story
            (handleContinue (some ch) prior r).chaptersUpdate = story)
    ∧ (∀ (ch : Chapter) (prior : Option ChapterSuggestion) (r : String) (story : Story),
        ch.content ≠ "" → strIncludes r "[AI failed" = false →
        handleRefineChapter (some ch) prior r
          = ⟨some ⟨.refine, r⟩,
              [⟨"Refinement generated successfully!", .success⟩], true, none⟩
        ∧ applyChaptersUpdate story
            (handleRefineChapter (some ch) prior r).chaptersUpdate = story)
    ∧ (∀ (characters : List Character) (i prompt r : String),
        prompt ≠ "" → r ≠ "" →
        handleGenerateImage characters i prompt r
          = ⟨[⟨"Image generated successfully!", .success⟩], true,
              some (setCharacterImageUrl characters i r)⟩) := by
  refine ⟨?_, ?_, ?_, ?_, ?_, ?_, ?_, ?_, ?_, ?_⟩
  · intro prompt prior r story hp hr
    constructor
    · simp [handleGenerateOverview, hp, hr]
    · simp [handleGenerateOverview, hp, hr, applyOverviewUpdate]
  · intro prior r story hr
    constructor
    · simp [handleGenerateCharacter, hr]
    · simp [handleGenerateCharacter, hr, applyCharactersUpdate]
  · intro overview st r story ho
    simp [handleGeneratePlot, ho, applyMainPlotUpdate, applySubplotsUpdate]
  · intro mainPlot st r story hm
    simp [handleRefinePlot, hm, applyMainPlotUpdate]
  · intro mainPlot st r story hm
    simp [handleGenerateSubplots, hm, applySubplotsUpdate]
  · intro sp st r story hd
    simp [handleRefineSubplot, hd, applySubplotsUpdate]
  · intro i n d prior r story hd hr
    constructor
    · simp [handleRefineDescription, hd, hr]
    · simp [handleRefineDescription, hd, hr, applyCharactersUpdate]
  · intro ch prior r story hr
    constructor
    · simp [handleContinue, hr]
    · simp [handleContinue, hr, applyChaptersUpdate]
  · intro ch prior r story hc hr
    constructor
    · simp [handleRefineChapter, hc, hr]
    · simp [handleRefineChapter, hc, hr, applyChaptersUpdate]
  · intro characters i prompt r hp hr
    simp [handleGenerateImage, hp, hr]

/-- Claim C2, witness: the amended theorem instantiated at concrete
successful results, one conjunct per suggestion-producing operation
plus the image exception. -/
theorem claim2_witness :
    handleGenerateOverview "idea" none "A grand overview."
        = ⟨some "A grand overview.",
            [⟨"Suggestion generated successfully!", .success⟩], true, none⟩
    ∧ handleGenerateCharacter none ⟨"Alice", "Brave.", "portrait"⟩
        = ⟨some ⟨"Alice", "Brave.", "portrait"⟩,
            [⟨"Character suggestion generated!", .success⟩], true, none⟩
    ∧ (handleGeneratePlot "ov" PlotState.idle "A plot.").state.suggestedMainPlot
        = some "A plot."
    ∧ (handleRefinePlot "mp" PlotState.idle "A better plot.").state.suggestedRefinedPlot
        = some "A better plot."
    ∧ (handleGenerateSubplots "mp" PlotState.idle [⟨"S1", "D1"⟩]).state.suggestedSubplots
        = some [⟨"S1", "D1"⟩]
    ∧ (handleRefineSubplot ⟨"s1", "T", "D"⟩ PlotState.idle
          "A better description.").state.suggestedRefinedSubplot
        = some ("s1", "A better description.")
    ∧ handleRefineDescription "c1" "N" "desc" none "A richer description."
        = ⟨some ("c1", "A richer description."),
            [⟨"Description refinement generated!", .success⟩], true, none⟩
    ∧ handleContinue (some ⟨"k", "T", "body"⟩) none "More story."
        = ⟨some ⟨.cont, "More story."⟩,
            [⟨"Suggestion generated successfully!", .success⟩], true, none⟩
    ∧ handleRefineChapter (some ⟨"k", "T", "body"⟩) none "Polished body."
        = ⟨some ⟨.refine, "Polished body."⟩,
            [⟨"Refinement generated successfully!", .success⟩], true, none⟩
    ∧ handleGenerateImage [⟨"c1", "N", "D", "", "P"⟩] "c1" "P" "data:img"
        = ⟨[⟨"Image generated successfully!", .success⟩], true,
            some (setCharacterImageUrl [⟨"c1", "N", "D", "", "P"⟩] "c1" "data:img")⟩ :=
  ⟨(claim2_amended_success.1 "idea" none "A grand overview."
      ⟨"", "", "", [], [], []⟩ (by decide) (by decide)).1,
   (claim2_amended_success.2.1 none ⟨"Alice", "Brave.", "portrait"⟩
      ⟨"", "", "", [], [], []⟩ (by decide)).1,
   (claim2_amended_success.2.2.1 "ov" PlotState.idle "A plot."
      ⟨"", "", "", [], [], []⟩ (by decide)).1,
   (claim2_amended_success.2.2.2.1 "mp" PlotState.idle "A better plot."
      ⟨"", "", "", [], [], []⟩ (by decide)).1,
   (claim2_amended_success.2.2.2.2.1 "mp" PlotState.idle [⟨"S1", "D1"⟩]
      ⟨"", "", "", [], [], []⟩ (by decide)).1,
   (claim2_amended_success.2.2.2.2.2.1 ⟨"s1", "T", "D"⟩ PlotState.idle
      "A better description." ⟨"", "", "", [], [], []⟩ (by decide)).1,
   (claim2_amended_success.2.2.2.2.2.2.1 "c1" "N" "desc" none "A richer description."
      ⟨"", "", "", [], [], []⟩ (by decide) (by decide)).1,
   (claim2_amended_success.2.2.2.2.2.2.2.1 ⟨"k", "T", "body"⟩ none "More story."
      ⟨"", "", "", [], [], []⟩ (by decide)).1,
   (claim2_amended_success.2.2.2.2.2.2.2.2.1 ⟨"k", "T", "body"⟩ none "Polished body."
      ⟨"", "", "", [], [], []⟩ (by decide) (by decide)).1,
   claim2_amended_success.2.2.2.2.2.2.2.2.2 [⟨"c1", "N", "D", "", "P"⟩] "c1" "P" "data:img"
      (by decide) (by decide)⟩

end StoryAI
